import Mathlib

/-!
Shallow embedding of the DeepChat application core (src/app/main.py and
src/app/utils.py): the session state (chat transcript plus generation
parameters), the turn-handling logic of `handle_query` with its
rollback-on-failure, the startup availability check of `main`, the sidebar
parameter controls and clear-history button of `settings_sidebar`, and the
`validate_model_available` helper of utils.py.  External collaborators
(the Ollama client calls `ollama.list`, `ollama.chat`, `ollama.show`, and
the Streamlit input widgets) are modelled as explicit oracle arguments, so
every theorem quantifies over their possible behaviours.
-/

namespace DeepChat

/-- A chat message, embedding the Python dict
`{"role": ..., "content": ...}` used throughout main.py. -/
structure Message where
  role : String
  content : String
deriving DecidableEq, Repr

/-- The generation parameters stored in `st.session_state.params`
(main.py, `initialize_session`).  Python floats are embedded as rationals
(the program only stores and compares them; it performs no float
arithmetic), `num_predict` is an int in the source. -/
structure Params where
  temperature : Rat
  top_p : Rat
  num_predict : Int
  repeat_penalty : Rat
deriving DecidableEq, Repr

/-- The mutable session state of main.py: `st.session_state.messages`
(the transcript) and `st.session_state.params`. -/
structure SessionState where
  messages : List Message
  params : Params
deriving DecidableEq, Repr

/-- The greeting seeded by `initialize_session` (main.py line 81). -/
def initGreeting : Message :=
  { role := "assistant", content := "How can I help you today? 🚀" }

/-- The default generation parameters of `initialize_session`
(main.py lines 85-90): temperature 0.7, top_p 0.9, num_predict 512,
repeat_penalty 1.1. -/
def defaultParams : Params :=
  { temperature := 7/10, top_p := 9/10, num_predict := 512, repeat_penalty := 11/10 }

/-- Embeds `initialize_session` (main.py): each of the two session keys is
set to its default only when absent, so the function takes the possibly
already-present values of `messages` and `params`. -/
def initialize_session (msgs : Option (List Message)) (ps : Option Params) :
    SessionState :=
  { messages := msgs.getD [initGreeting], params := ps.getD defaultParams }

/-- The `message` field of an Ollama chat response, whose `content` key may
be absent (main.py line 167 checks `'content' not in response['message']`). -/
structure RespMessage where
  content : Option String
deriving DecidableEq, Repr

/-- An Ollama chat-completion response, whose `message` key may be absent
(main.py line 167 checks `'message' not in response`). -/
structure ChatResponse where
  message : Option RespMessage
deriving DecidableEq, Repr

/-- The oracle for the external `ollama.chat` call: it receives the message
list and the options built from the current parameters (main.py lines
153-163) and either returns a response or raises (embedded as
`Except.error`, covering network and transport failures). -/
abbrev ChatClient : Type :=
  List Message → Params → Except String ChatResponse

/-- The outcome `handle_query` surfaces to the user: the assistant reply on
success, or the error-box message on failure (main.py lines 178-184). -/
inductive TurnOutcome where
  | success (reply : String)
  | failure (err : String)
deriving DecidableEq, Repr

/-- The message of the `ValueError` raised on a malformed response
(main.py line 168). -/
def invalidFormatMsg : String := "Invalid response format from Ollama API"

/-- The tentative user message appended by `handle_query`
(main.py line 143): `{"role": "user", "content": prompt}`. -/
def userMsg (t : String) : Message := { role := "user", content := t }

/-- The assistant message appended by `handle_query`
(main.py line 175): `{"role": "assistant", "content": reply}`. -/
def assistantMsg (t : String) : Message := { role := "assistant", content := t }

/-- Embeds `handle_query` (main.py lines 138-187).  The walrus guard
`if prompt := st.chat_input(...)` runs the turn only for a truthy value,
i.e. neither `None` nor the empty string.  Inside the `try` block the
tentative user message is appended, `ollama.chat` is called, the response
shape is validated (raising `ValueError` when `message` or its `content`
key is missing), and on success the assistant message is appended.  The
`except` handler pops the last list element — at every failure point the
list is the transcript with the tentative user message appended.  Returns
the new session state and the surfaced outcome (`none` when the guard
rejected the input, so no client call was made). -/
def handle_query (chat : ChatClient) (promptOpt : Option String)
    (s : SessionState) : SessionState × Option TurnOutcome :=
  match promptOpt with
  | none => (s, none)
  | some prompt =>
    if prompt = "" then (s, none)
    else
      let msgs1 := s.messages ++ [userMsg prompt]
      match chat msgs1 s.params with
      | Except.error e =>
          ({ s with messages := msgs1.dropLast }, some (TurnOutcome.failure e))
      | Except.ok response =>
        match response.message with
        | none =>
            ({ s with messages := msgs1.dropLast },
              some (TurnOutcome.failure invalidFormatMsg))
        | some m =>
          match m.content with
          | none =>
              ({ s with messages := msgs1.dropLast },
                some (TurnOutcome.failure invalidFormatMsg))
          | some reply =>
              ({ s with messages := msgs1 ++ [assistantMsg reply] },
                some (TurnOutcome.success reply))

/-- One entry of the `models` list of an `ollama.list()` response; the
source reads both `m.get('model')` and `m.get('name')`, either of which
may be absent (main.py lines 229-232). -/
structure ModelEntry where
  model : Option String
  name : Option String
deriving DecidableEq, Repr

/-- An `ollama.list()` response; the `models` key may be absent
(main.py line 218 checks `'models' not in server_status`). -/
structure ServerStatus where
  models : Option (List ModelEntry)
deriving DecidableEq, Repr

/-- The two exception branches of the phase-1 connectivity check
(main.py lines 200-214): `ollama.ClientError` and any other exception. -/
inductive ListError where
  | clientError (detail : String)
  | otherError (detail : String)
deriving DecidableEq, Repr

/-- The detail string carried by either kind of list failure. -/
def ListError.detail : ListError → String
  | ListError.clientError d => d
  | ListError.otherError d => d

/-- The startup verdict (spec §3 AvailabilityVerdict, plus the
protocol-mismatch verdict of §4.2 step 2). -/
inductive Verdict where
  | ready
  | serverUnreachable (detail : String)
  | protocolMismatch
  | modelMissing
deriving DecidableEq, Repr

/-- The required model string (main.py lines 230-231). -/
def requiredModel : String := "deepseek-r1:1.5b"

/-- Embeds the `model_found` check of `main` (main.py lines 229-233):
`any(m.get('model') == 'deepseek-r1:1.5b' or m.get('name') ==
'deepseek-r1:1.5b' for m in server_status['models'])`.  `dict.get` of an
absent key yields `None`, which compares unequal to any string. -/
def model_found (entries : List ModelEntry) : Bool :=
  entries.any fun m =>
    m.model == some requiredModel || m.name == some requiredModel

/-- Embeds phases 1 and 2 of `main` (main.py lines 195-249) as the
availability check: a failed `ollama.list()` halts via `st.stop()` with a
connection error (either except branch); a response without a `models` key
halts with the unexpected-response-format error; a missing required model
halts with the model-not-found error; otherwise the app proceeds. -/
def availability_check (listResult : Except ListError ServerStatus) : Verdict :=
  match listResult with
  | Except.error (ListError.clientError d) => Verdict.serverUnreachable d
  | Except.error (ListError.otherError d) => Verdict.serverUnreachable d
  | Except.ok server_status =>
    match server_status.models with
    | none => Verdict.protocolMismatch
    | some entries =>
        if model_found entries then Verdict.ready else Verdict.modelMissing

/-- The observable outcome of one run of `main`: either `st.stop()` was
reached during the startup checks (no chat interaction possible), or phase
3 ran — the session was initialized and `handle_query` processed the
pending input. -/
inductive MainOutcome where
  | halted (v : Verdict)
  | running (result : SessionState × Option TurnOutcome)
deriving DecidableEq, Repr

/-- Embeds `main` (main.py lines 189-250): the startup checks run first
and every non-ready verdict stops the app before `initialize_session`,
`settings_sidebar`, `display_chat` or `handle_query` run; on `Ready` the
fresh session is initialized and the pending chat input is handled. -/
def main (listResult : Except ListError ServerStatus) (chat : ChatClient)
    (promptOpt : Option String) : MainOutcome :=
  match availability_check listResult with
  | Verdict.ready =>
      MainOutcome.running (handle_query chat promptOpt (initialize_session none none))
  | v => MainOutcome.halted v

/-- Modelled contract of the external Streamlit slider widget used by
`settings_sidebar` (main.py lines 96-120): the widget presents the range
`[lo, hi]` and the value it yields always lies in that range — a requested
value outside the range is constrained (clamped) to it.  The widget itself
is library code, not part of src/. -/
def slider (lo hi v : Rat) : Rat := max lo (min hi v)

/-- Integer variant of `slider`, for the `num_predict` slider
(main.py lines 110-114), whose bounds are ints. -/
def sliderInt (lo hi v : Int) : Int := max lo (min hi v)

/-- One parameter update performed by `settings_sidebar`: which of the four
sliders moved, and the requested new value. -/
inductive ParamUpdate where
  | temperature (v : Rat)
  | top_p (v : Rat)
  | num_predict (v : Int)
  | repeat_penalty (v : Rat)
deriving DecidableEq, Repr

/-- Embeds the four slider assignments of `settings_sidebar` (main.py lines
96-120): each stores into its own `params` field the slider value for its
documented range — temperature [0, 1], top_p [0.1, 1], num_predict
[128, 2048], repeat_penalty [1.0, 2.0] — and touches nothing else. -/
def updateParameter (u : ParamUpdate) (s : SessionState) : SessionState :=
  match u with
  | ParamUpdate.temperature v =>
      { s with params := { s.params with temperature := slider 0 1 v } }
  | ParamUpdate.top_p v =>
      { s with params := { s.params with top_p := slider (1/10) 1 v } }
  | ParamUpdate.num_predict v =>
      { s with params := { s.params with num_predict := sliderInt 128 2048 v } }
  | ParamUpdate.repeat_penalty v =>
      { s with params := { s.params with repeat_penalty := slider 1 2 v } }

/-- The greeting seeded by the Clear Chat History button
(main.py lines 123-126). -/
def clearGreeting : Message :=
  { role := "assistant", content := "How can I help you with coding today? 🚀" }

/-- Embeds the Clear Chat History button handler of `settings_sidebar`
(main.py lines 123-128): replaces the transcript with a single seeded
assistant greeting and changes nothing else. -/
def clear_chat_history (s : SessionState) : SessionState :=
  { s with messages := [clearGreeting] }

/-- Embeds `validate_model_available` (utils.py): calls the external
`ollama.show` probe (the oracle argument) on the model name, returning
`True` when it succeeds and `False` when it raises any exception. -/
def validate_model_available (showModel : String → Except String Unit)
    (model_name : String) : Bool :=
  match showModel model_name with
  | Except.ok _ => true
  | Except.error _ => false

/-- The transcript invariant of claim C10: non-empty, first message has
role assistant. -/
def transcriptInv (msgs : List Message) : Prop :=
  msgs ≠ [] ∧ msgs.head?.map Message.role = some "assistant"

instance (msgs : List Message) : Decidable (transcriptInv msgs) := by
  unfold transcriptInv
  infer_instance

/-- Popping the just-appended tentative user message restores the session
state exactly (main.py line 187, `st.session_state.messages.pop()`). -/
theorem rollback_state_eq (s : SessionState) (u : Message) :
    ({ s with messages := (s.messages ++ [u]).dropLast } : SessionState) = s := by
  cases s with
  | mk msgs ps => simp [List.dropLast_concat]

/-- C1: every failed turn — a client error or a malformed-response
validation error raised between appending the tentative user message and
storing the assistant reply — rolls back by removing exactly one entry,
the last-appended one, so the state after the failed turn equals the state
before the turn was submitted. -/
theorem C1_failed_turn_rollback (chat : ChatClient) (p e : String)
    (s st' : SessionState)
    (h : handle_query chat (some p) s = (st', some (TurnOutcome.failure e))) :
    st' = s ∧
      st'.messages
        = (s.messages ++ [userMsg p]).dropLast := by
  by_cases hp : p = ""
  · subst hp
    simp [handle_query] at h
  · simp only [handle_query, if_neg hp] at h
    cases hc : chat (s.messages ++ [userMsg p]) s.params with
    | error err =>
      simp only [hc] at h
      rw [Prod.mk.injEq] at h
      obtain ⟨h1, -⟩ := h
      subst h1
      exact ⟨rollback_state_eq s _, rfl⟩
    | ok resp =>
      simp only [hc] at h
      cases hm : resp.message with
      | none =>
        simp only [hm] at h
        rw [Prod.mk.injEq] at h
        obtain ⟨h1, -⟩ := h
        subst h1
        exact ⟨rollback_state_eq s _, rfl⟩
      | some m =>
        simp only [hm] at h
        cases hcon : m.content with
        | none =>
          simp only [hcon] at h
          rw [Prod.mk.injEq] at h
          obtain ⟨h1, -⟩ := h
          subst h1
          exact ⟨rollback_state_eq s _, rfl⟩
        | some reply =>
          simp only [hcon] at h
          simp at h

/-- C1 witness: a concrete failing client on the freshly initialized
session restores the seeded transcript exactly. -/
theorem C1_failed_turn_rollback_witness :
    initialize_session none none = initialize_session none none ∧
      (initialize_session none none).messages
        = ((initialize_session none none).messages ++ [userMsg "hi"]).dropLast :=
  C1_failed_turn_rollback (fun _ _ => Except.error "boom") "hi" "boom"
    (initialize_session none none) (initialize_session none none) rfl

/-- C2: every successful turn appends exactly the user message with the
submitted text followed by the assistant message with the reply extracted
from the server response; the prior transcript entries and the parameters
are unchanged and the length grows by exactly two. -/
theorem C2_successful_turn_appends_pair (chat : ChatClient) (p r : String)
    (s st' : SessionState)
    (h : handle_query chat (some p) s = (st', some (TurnOutcome.success r))) :
    st'.messages = s.messages
        ++ [userMsg p, assistantMsg r] ∧
      st'.params = s.params ∧
      st'.messages.length = s.messages.length + 2 ∧
      ∃ resp m,
        chat (s.messages ++ [userMsg p]) s.params = Except.ok resp ∧
          resp.message = some m ∧ m.content = some r := by
  by_cases hp : p = ""
  · subst hp
    simp [handle_query] at h
  · simp only [handle_query, if_neg hp] at h
    cases hc : chat (s.messages ++ [userMsg p]) s.params with
    | error err => simp only [hc] at h; simp at h
    | ok resp =>
      simp only [hc] at h
      cases hm : resp.message with
      | none => simp only [hm] at h; simp at h
      | some m =>
        simp only [hm] at h
        cases hcon : m.content with
        | none => simp only [hcon] at h; simp at h
        | some reply =>
          simp only [hcon] at h
          rw [Prod.mk.injEq] at h
          obtain ⟨h1, h2⟩ := h
          simp only [Option.some.injEq, TurnOutcome.success.injEq] at h2
          subst h2
          subst h1
          refine ⟨by simp, rfl, by simp, resp, m, rfl, hm, hcon⟩

/-- C2 witness: a concrete well-formed client reply on the freshly
initialized session appends the user/assistant pair. -/
theorem C2_successful_turn_appends_pair_witness :
    ({ messages := [initGreeting, userMsg "hi", assistantMsg "hello"],
        params := defaultParams } : SessionState).messages
      = (initialize_session none none).messages
          ++ [userMsg "hi", assistantMsg "hello"] :=
  (C2_successful_turn_appends_pair
    (fun _ _ => Except.ok { message := some { content := some "hello" } }) "hi" "hello"
    (initialize_session none none)
    { messages := [initGreeting, userMsg "hi", assistantMsg "hello"],
      params := defaultParams }
    rfl).1

/-- C3 counterexample: the guard `if prompt := st.chat_input(...)` tests
Python truthiness, so the whitespace-only prompt " " is admitted: with a
client returning a well-formed reply, the transcript is mutated (the claim
asserts it would be left unchanged with no client call). -/
theorem C3_whitespace_input_mutates_state :
    (handle_query (fun _ _ => Except.ok { message := some { content := some "ok" } })
          (some " ") (initialize_session none none)).1.messages
      ≠ (initialize_session none none).messages := by
  decide

/-- C3 amended: only an absent or empty input is rejected — the session
state is unchanged and the outcome is `none`, independent of the client
(so no client call is made); any non-empty input, including
whitespace-only strings, is processed as a turn (an outcome is produced,
so a client call is made). -/
theorem C3_empty_input_is_noop (chat : ChatClient) (s : SessionState)
    (p : String) (hp : p ≠ "") :
    handle_query chat none s = (s, none) ∧
      handle_query chat (some "") s = (s, none) ∧
      (handle_query chat (some p) s).2.isSome = true := by
  refine ⟨rfl, rfl, ?_⟩
  simp only [handle_query, if_neg hp]
  split
  · rfl
  · split
    · rfl
    · split
      · rfl
      · rfl

/-- C3 amended witness: concrete no-op on empty input and a produced
outcome on "hi", for a concrete failing client. -/
theorem C3_empty_input_is_noop_witness :
    handle_query (fun _ _ => Except.error "boom") none (initialize_session none none)
        = (initialize_session none none, none) ∧
      handle_query (fun _ _ => Except.error "boom") (some "")
          (initialize_session none none)
        = (initialize_session none none, none) ∧
      (handle_query (fun _ _ => Except.error "boom") (some "hi")
          (initialize_session none none)).2.isSome = true :=
  C3_empty_input_is_noop (fun _ _ => Except.error "boom")
    (initialize_session none none) "hi" (by decide)

/-- C6: when the chat-completion response lacks the `message` field or the
`message.content` field, the turn surfaces the invalid-format failure (the
`ValueError` of main.py line 168) and the session state is restored
exactly to its pre-turn value. -/
theorem C6_malformed_response_turn_error (chat : ChatClient) (p : String)
    (s : SessionState) (resp : ChatResponse) (hp : p ≠ "")
    (hc : chat (s.messages ++ [userMsg p]) s.params = Except.ok resp)
    (hm : resp.message = none ∨ ∃ m, resp.message = some m ∧ m.content = none) :
    handle_query chat (some p) s
      = (s, some (TurnOutcome.failure invalidFormatMsg)) := by
  simp only [handle_query, if_neg hp, hc]
  rcases hm with hm | ⟨m, hm, hcon⟩
  · simp only [hm]
    rw [Prod.mk.injEq]
    exact ⟨rollback_state_eq s _, rfl⟩
  · simp only [hm, hcon]
    rw [Prod.mk.injEq]
    exact ⟨rollback_state_eq s _, rfl⟩

/-- C6 witness: a concrete response without a `message` field yields the
invalid-format failure and the restored fresh session. -/
theorem C6_malformed_response_turn_error_witness :
    handle_query (fun _ _ => Except.ok { message := none }) (some "hi")
        (initialize_session none none)
      = (initialize_session none none,
          some (TurnOutcome.failure invalidFormatMsg)) :=
  C6_malformed_response_turn_error (fun _ _ => Except.ok { message := none }) "hi"
    (initialize_session none none) { message := none } (by decide) rfl (Or.inl rfl)

/-- The `any(...)` generator of main.py lines 229-233, characterised as an
existential over the entries. -/
theorem model_found_iff (entries : List ModelEntry) :
    model_found entries = true
      ↔ ∃ m ∈ entries,
          m.model = some requiredModel ∨ m.name = some requiredModel := by
  simp [model_found, List.any_eq_true]

/-- C4: given a successfully retrieved model list, the check yields Ready
iff some entry's `model` or `name` field equals "deepseek-r1:1.5b" under
exact case-sensitive comparison (either field sufficient), ModelMissing
otherwise; in particular [\x7bmodel:"llama2"\x7d] yields ModelMissing and
[\x7bname:"deepseek-r1:1.5b"\x7d] yields Ready. -/
theorem C4_dual_field_model_matching :
    (∀ entries : List ModelEntry,
        availability_check (Except.ok { models := some entries }) = Verdict.ready
          ↔ ∃ m ∈ entries,
              m.model = some requiredModel ∨ m.name = some requiredModel) ∧
      (∀ entries : List ModelEntry,
        availability_check (Except.ok { models := some entries })
            = Verdict.modelMissing
          ↔ ¬ ∃ m ∈ entries,
              m.model = some requiredModel ∨ m.name = some requiredModel) ∧
      availability_check
          (Except.ok { models := some [{ model := some "llama2", name := none }] })
        = Verdict.modelMissing ∧
      availability_check
          (Except.ok { models := some [{ model := none, name := some requiredModel }] })
        = Verdict.ready := by
  refine ⟨fun entries => ?_, fun entries => ?_, by decide, by decide⟩
  · rw [show availability_check (Except.ok { models := some entries })
        = (if model_found entries then Verdict.ready else Verdict.modelMissing)
      from rfl]
    by_cases hf : model_found entries = true
    · rw [if_pos hf]
      exact iff_of_true rfl ((model_found_iff entries).mp hf)
    · rw [if_neg hf]
      exact iff_of_false (fun hcon => Verdict.noConfusion hcon)
        (fun hex => hf ((model_found_iff entries).mpr hex))
  · rw [show availability_check (Except.ok { models := some entries })
        = (if model_found entries then Verdict.ready else Verdict.modelMissing)
      from rfl]
    by_cases hf : model_found entries = true
    · rw [if_pos hf]
      exact iff_of_false (fun hcon => Verdict.noConfusion hcon)
        (fun hnex => hnex ((model_found_iff entries).mp hf))
    · rw [if_neg hf]
      exact iff_of_true rfl (fun hex => hf ((model_found_iff entries).mpr hex))

/-- C4 witness: a list matching on the `name` field alone is Ready. -/
theorem C4_dual_field_model_matching_witness :
    availability_check
        (Except.ok
          { models := some [{ model := some "llama2", name := some requiredModel }] })
      = Verdict.ready :=
  (C4_dual_field_model_matching.1
      [{ model := some "llama2", name := some requiredModel }]).mpr
    ⟨{ model := some "llama2", name := some requiredModel }, by simp, Or.inr rfl⟩

/-- Unfolding of `main` through its startup verdict. -/
theorem main_eq (lr : Except ListError ServerStatus) (chat : ChatClient)
    (po : Option String) :
    main lr chat po
      = if availability_check lr = Verdict.ready
          then MainOutcome.running (handle_query chat po (initialize_session none none))
          else MainOutcome.halted (availability_check lr) := by
  unfold main
  cases hv : availability_check lr <;> simp

/-- C5: the startup check is a strict linear state machine: a failed
`listModels` yields ServerUnreachable (the response is never inspected —
none exists); a success without a recognizable `models` list yields the
protocol-mismatch verdict; ModelMissing and Ready are only reachable once
both prior checks passed; and chat interaction (the running outcome of
`main`) occurs exactly when the verdict is Ready — every other verdict
halts the app. -/
theorem C5_startup_state_machine :
    (∀ err : ListError,
        availability_check (Except.error err)
          = Verdict.serverUnreachable err.detail) ∧
      (∀ ss : ServerStatus, ss.models = none →
        availability_check (Except.ok ss) = Verdict.protocolMismatch) ∧
      (∀ lr : Except ListError ServerStatus,
        availability_check lr = Verdict.modelMissing
            ∨ availability_check lr = Verdict.ready →
          ∃ ss entries, lr = Except.ok ss ∧ ss.models = some entries) ∧
      (∀ (lr : Except ListError ServerStatus) (chat : ChatClient)
          (po : Option String),
        (∃ res, main lr chat po = MainOutcome.running res)
          ↔ availability_check lr = Verdict.ready) := by
  refine ⟨fun err => ?_, fun ss hm => ?_, fun lr hv => ?_, fun lr chat po => ?_⟩
  · cases err <;> rfl
  · cases ss with
    | mk ms =>
      simp only at hm
      subst hm
      rfl
  · cases lr with
    | error err => cases err <;> simp [availability_check] at hv
    | ok ss =>
      cases ss with
      | mk ms =>
        cases ms with
        | none => simp [availability_check] at hv
        | some entries => exact ⟨_, entries, rfl, rfl⟩
  · rw [main_eq]
    by_cases hv : availability_check lr = Verdict.ready
    · simp [hv]
    · simp [hv]

/-- C5 witness: a response without a `models` field is a protocol
mismatch, and a response with a matching model list makes `main` run. -/
theorem C5_startup_state_machine_witness :
    availability_check (Except.ok { models := none }) = Verdict.protocolMismatch ∧
      (∃ res,
        main (Except.ok { models := some [{ model := some requiredModel, name := none }] })
            (fun _ _ => Except.error "x") none
          = MainOutcome.running res) :=
  ⟨C5_startup_state_machine.2.1 { models := none } rfl,
    (C5_startup_state_machine.2.2.2
        (Except.ok { models := some [{ model := some requiredModel, name := none }] })
        (fun _ _ => Except.error "x") none).mpr (by decide)⟩

/-- The slider value lies in the documented range whenever the range is
non-degenerate. -/
theorem slider_mem (lo hi v : Rat) (h : lo ≤ hi) :
    lo ≤ slider lo hi v ∧ slider lo hi v ≤ hi :=
  ⟨le_max_left lo _, max_le h (min_le_left hi v)⟩

/-- Integer version of `slider_mem`. -/
theorem sliderInt_mem (lo hi v : Int) (h : lo ≤ hi) :
    lo ≤ sliderInt lo hi v ∧ sliderInt lo hi v ≤ hi :=
  ⟨le_max_left lo _, max_le h (min_le_left hi v)⟩

/-- C7: each of the four parameter updates stores the requested value
clamped into its documented range — temperature [0, 1], top_p [0.1, 1],
num_predict [128, 2048], repeat_penalty [1.0, 2.0] — and leaves the other
three parameters and the transcript unchanged. -/
theorem C7_update_parameter_clamps (s : SessionState) (v : Rat) (n : Int) :
    ((updateParameter (ParamUpdate.temperature v) s).params.temperature
          = slider 0 1 v ∧
        0 ≤ slider 0 1 v ∧ slider 0 1 v ≤ 1 ∧
        (updateParameter (ParamUpdate.temperature v) s).params.top_p
          = s.params.top_p ∧
        (updateParameter (ParamUpdate.temperature v) s).params.num_predict
          = s.params.num_predict ∧
        (updateParameter (ParamUpdate.temperature v) s).params.repeat_penalty
          = s.params.repeat_penalty ∧
        (updateParameter (ParamUpdate.temperature v) s).messages = s.messages) ∧
      ((updateParameter (ParamUpdate.top_p v) s).params.top_p
          = slider (1/10) 1 v ∧
        1/10 ≤ slider (1/10) 1 v ∧ slider (1/10) 1 v ≤ 1 ∧
        (updateParameter (ParamUpdate.top_p v) s).params.temperature
          = s.params.temperature ∧
        (updateParameter (ParamUpdate.top_p v) s).params.num_predict
          = s.params.num_predict ∧
        (updateParameter (ParamUpdate.top_p v) s).params.repeat_penalty
          = s.params.repeat_penalty ∧
        (updateParameter (ParamUpdate.top_p v) s).messages = s.messages) ∧
      ((updateParameter (ParamUpdate.num_predict n) s).params.num_predict
          = sliderInt 128 2048 n ∧
        128 ≤ sliderInt 128 2048 n ∧ sliderInt 128 2048 n ≤ 2048 ∧
        (updateParameter (ParamUpdate.num_predict n) s).params.temperature
          = s.params.temperature ∧
        (updateParameter (ParamUpdate.num_predict n) s).params.top_p
          = s.params.top_p ∧
        (updateParameter (ParamUpdate.num_predict n) s).params.repeat_penalty
          = s.params.repeat_penalty ∧
        (updateParameter (ParamUpdate.num_predict n) s).messages = s.messages) ∧
      ((updateParameter (ParamUpdate.repeat_penalty v) s).params.repeat_penalty
          = slider 1 2 v ∧
        1 ≤ slider 1 2 v ∧ slider 1 2 v ≤ 2 ∧
        (updateParameter (ParamUpdate.repeat_penalty v) s).params.temperature
          = s.params.temperature ∧
        (updateParameter (ParamUpdate.repeat_penalty v) s).params.top_p
          = s.params.top_p ∧
        (updateParameter (ParamUpdate.repeat_penalty v) s).params.num_predict
          = s.params.num_predict ∧
        (updateParameter (ParamUpdate.repeat_penalty v) s).messages = s.messages) :=
  ⟨⟨rfl, (slider_mem 0 1 v (by norm_num)).1, (slider_mem 0 1 v (by norm_num)).2,
      rfl, rfl, rfl, rfl⟩,
    ⟨rfl, (slider_mem (1/10) 1 v (by norm_num)).1,
      (slider_mem (1/10) 1 v (by norm_num)).2, rfl, rfl, rfl, rfl⟩,
    ⟨rfl, (sliderInt_mem 128 2048 n (by norm_num)).1,
      (sliderInt_mem 128 2048 n (by norm_num)).2, rfl, rfl, rfl, rfl⟩,
    ⟨rfl, (slider_mem 1 2 v (by norm_num)).1, (slider_mem 1 2 v (by norm_num)).2,
      rfl, rfl, rfl, rfl⟩⟩

/-- C8: resetting the transcript yields exactly one message, an assistant
message (the seeded greeting), changes no other state, and is
idempotent. -/
theorem C8_reset_transcript (s : SessionState) :
    (clear_chat_history s).messages = [clearGreeting] ∧
      (clear_chat_history s).messages.length = 1 ∧
      clearGreeting.role = "assistant" ∧
      (clear_chat_history s).params = s.params ∧
      clear_chat_history (clear_chat_history s) = clear_chat_history s :=
  ⟨rfl, rfl, rfl, rfl, rfl⟩

/-- C9: `validate_model_available` is total by construction (it returns a
Bool for every probe oracle and model name, never propagating the probe's
exception): it returns true exactly when the probe succeeds, and false for
every exception the probe raises. -/
theorem C9_validate_model_available_total
    (showModel : String → Except String Unit) (model_name : String) :
    (validate_model_available showModel model_name = true
        ↔ ∃ u, showModel model_name = Except.ok u) ∧
      ∀ e, showModel model_name = Except.error e →
        validate_model_available showModel model_name = false := by
  unfold validate_model_available
  cases hs : showModel model_name with
  | ok u =>
    exact ⟨⟨fun _ => ⟨u, rfl⟩, fun _ => rfl⟩, fun e he => Except.noConfusion he⟩
  | error e =>
    refine ⟨⟨fun hfalse => Bool.noConfusion hfalse, ?_⟩, fun e2 he2 => rfl⟩
    rintro ⟨u, hu⟩
    exact Except.noConfusion hu

/-- C9 witness: a concrete always-raising probe yields false. -/
theorem C9_validate_model_available_total_witness :
    validate_model_available (fun _ => Except.error "not found") "m" = false :=
  (C9_validate_model_available_total (fun _ => Except.error "not found") "m").2
    "not found" rfl

/-- Appending on the right preserves the transcript invariant. -/
theorem transcriptInv_append (msgs rest : List Message)
    (h : transcriptInv msgs) : transcriptInv (msgs ++ rest) := by
  obtain ⟨hne, hhead⟩ := h
  refine ⟨by simp [hne], ?_⟩
  rw [List.head?_append_of_ne_nil msgs hne]
  exact hhead

/-- C10: the transcript is never empty and its first message is always an
assistant message: the invariant holds after session initialization and is
preserved by every turn (successful or rolled back) and by the history
reset. -/
theorem C10_transcript_invariant (chat : ChatClient) (po : Option String)
    (s : SessionState) (ps : Option Params) (h : transcriptInv s.messages) :
    transcriptInv (initialize_session none ps).messages ∧
      transcriptInv (handle_query chat po s).1.messages ∧
      transcriptInv (clear_chat_history s).messages := by
  refine ⟨⟨by simp [initialize_session], rfl⟩, ?_,
    by simp [clear_chat_history], rfl⟩
  cases po with
  | none => exact h
  | some p =>
    by_cases hp : p = ""
    · subst hp
      exact h
    · simp only [handle_query, if_neg hp]
      cases hc : chat (s.messages ++ [userMsg p]) s.params with
      | error err => simpa [List.dropLast_concat] using h
      | ok resp =>
        cases hm : resp.message with
        | none => simpa [hm, List.dropLast_concat] using h
        | some m =>
          cases hcon : m.content with
          | none => simpa [hm, hcon, List.dropLast_concat] using h
          | some reply =>
            simp only [hm, hcon]
            exact transcriptInv_append _ _ (transcriptInv_append _ _ h)

/-- C10 witness: the invariant holds on the fresh session and is preserved
by a concrete failed turn and by the reset. -/
theorem C10_transcript_invariant_witness :
    transcriptInv (initialize_session none none).messages ∧
      transcriptInv (handle_query (fun _ _ => Except.error "boom") (some "hi")
          (initialize_session none none)).1.messages ∧
      transcriptInv (clear_chat_history (initialize_session none none)).messages :=
  C10_transcript_invariant (fun _ _ => Except.error "boom") (some "hi")
    (initialize_session none none) none (by decide)

end DeepChat
